import Mathlib

/-!
Verification of `src/mlflow/tracking/_model_registry/fluent.py` against its
natural-language specification.

The Python module is shallowly embedded: pure logic becomes Lean functions,
remote client calls become function-valued environment fields, raised Python
exceptions become `Except` errors, and the unbounded `while True` pagination
loops are given an explicit fuel argument (`none` = the loop is still
running after `fuel` iterations, which never happens in the theorems below
because their hypotheses bound the number of pages).
-/

namespace Mlflow

/-- A logged model as returned by `client.search_logged_models`; only the two
fields the module reads (`model_id`, `source_run_id`) are embedded. -/
structure LoggedModel where
  model_id : String
  source_run_id : String
deriving DecidableEq

/-- One page returned by a paginated remote search call: the items plus the
continuation token.  `none` models Python `None`; `some ""` models the empty
string.  Both are falsy in the loops' stop tests. -/
structure LoggedModelPage where
  items : List LoggedModel
  token : Option String
deriving DecidableEq

/-- Python truthiness test `not page.token`: the token is absent (`None`) or
the empty string. -/
def tokenIsEmpty : Option String → Bool
  | none => true
  | some s => s == ""

/-- The `while True` pagination loop of `_get_logged_models_from_run`
(fluent.py lines 290-304).  `fetch` is `client.search_logged_models` viewed
as a function of the page token it is handed (the experiment id and the
name filter are fixed by the caller and folded into `fetch`); an
`Except.error` models the remote call raising.  The loop filters each page
by `m.source_run_id == runId` and extends the accumulator, breaks when the
page token is falsy, and otherwise passes the page's token back to the next
fetch.  The returned `Nat` instruments the number of fetches performed. -/
def getLoggedModelsLoop (fetch : Option String → Except ε LoggedModelPage) (runId : String) :
    Nat → Option String → List LoggedModel → Option (Except ε (List LoggedModel × Nat))
  | 0, _, _ => none
  | fuel+1, tok, acc =>
    match fetch tok with
    | .error e => some (.error e)
    | .ok page =>
      let acc2 := acc ++ page.items.filter (fun m => m.source_run_id == runId)
      if tokenIsEmpty page.token then some (.ok (acc2, 1))
      else
        match getLoggedModelsLoop fetch runId fuel page.token acc2 with
        | none => none
        | some (.error e) => some (.error e)
        | some (.ok (res, c)) => some (.ok (res, c + 1))

/-- `_get_logged_models_from_run` (fluent.py lines 279-304): run the loop
starting from `page_token = None` and an empty accumulator. -/
def _get_logged_models_from_run (fetch : Option String → Except ε LoggedModelPage)
    (runId : String) (fuel : Nat) : Option (Except ε (List LoggedModel × Nat)) :=
  getLoggedModelsLoop fetch runId fuel none []

/-- The sequence of pages a deterministic remote source yields to the loop
when the loop starts from token `tok`: page `0` answers `tok`, and page
`i+1` answers the token of page `i` — i.e. the loop hands the previous
page's token back unchanged. -/
def pageSeqFrom (fetch : Option String → LoggedModelPage) (tok : Option String) : Nat → LoggedModelPage
  | 0 => fetch tok
  | i+1 => fetch (pageSeqFrom fetch tok i).token

/-- Concatenation, in order, of `f 0 ++ f 1 ++ ... ++ f (n-1)`. -/
def concatUpTo (f : Nat → List α) : Nat → List α
  | 0 => []
  | n+1 => concatUpTo f n ++ f n

theorem pageSeqFrom_shift (fetch : Option String → LoggedModelPage) (tok : Option String) (i : Nat) :
    pageSeqFrom fetch ((fetch tok).token) i = pageSeqFrom fetch tok (i + 1) := by
  induction i with
  | zero => rfl
  | succ i ih => simp only [pageSeqFrom, ih]

theorem concatUpTo_shift (f : Nat → List α) (n : Nat) :
    concatUpTo f (n + 1) = f 0 ++ concatUpTo (fun i => f (i + 1)) n := by
  induction n with
  | zero => simp [concatUpTo]
  | succ n ih =>
    calc concatUpTo f (n + 2) = concatUpTo f (n + 1) ++ f (n + 1) := rfl
      _ = (f 0 ++ concatUpTo (fun i => f (i + 1)) n) ++ f (n + 1) := by rw [ih]
      _ = f 0 ++ concatUpTo (fun i => f (i + 1)) (n + 1) := by
            rw [List.append_assoc]; rfl

/-- Core run lemma for the pagination loop: if the remote source is
deterministic in the token, its page sequence from `tok` first shows a
falsy continuation token at index `n`, and the fuel covers `n + 1`
iterations, then the loop returns the in-order concatenation of the
filtered items of pages `0..n`, after exactly `n + 1` fetches. -/
theorem getLoggedModelsLoop_run (ε : Type) (fetch : Option String → LoggedModelPage) (runId : String) :
    ∀ (n fuel : Nat) (tok : Option String) (acc : List LoggedModel),
      tokenIsEmpty (pageSeqFrom fetch tok n).token = true →
      (∀ i, i < n → tokenIsEmpty (pageSeqFrom fetch tok i).token = false) →
      n + 1 ≤ fuel →
      getLoggedModelsLoop (fun t => (Except.ok (fetch t) : Except ε LoggedModelPage)) runId fuel tok acc
        = some (Except.ok
            (acc ++ concatUpTo
              (fun i => (pageSeqFrom fetch tok i).items.filter (fun m => m.source_run_id == runId))
              (n + 1),
             n + 1)) := by
  intro n
  induction n with
  | zero =>
    intro fuel tok acc hstop _ hfuel
    match fuel, hfuel with
    | fuel + 1, _ =>
      simp only [getLoggedModelsLoop]
      have hstop' : tokenIsEmpty (fetch tok).token = true := hstop
      simp [hstop', concatUpTo, pageSeqFrom]
  | succ n ih =>
    intro fuel tok acc hstop hbefore hfuel
    match fuel, hfuel with
    | fuel + 1, hfuel =>
      simp only [getLoggedModelsLoop]
      have hne : tokenIsEmpty (fetch tok).token = false := hbefore 0 (Nat.succ_pos n)
      have hrec := ih fuel ((fetch tok).token)
        (acc ++ (fetch tok).items.filter (fun m => m.source_run_id == runId))
        (by rw [pageSeqFrom_shift]; exact hstop)
        (by intro i hi; rw [pageSeqFrom_shift]; exact hbefore (i + 1) (Nat.succ_lt_succ hi))
        (Nat.le_of_succ_le_succ hfuel)
      simp only [hne, hrec]
      simp only [Bool.false_eq_true, if_false]
      congr 2
      rw [concatUpTo_shift (fun i =>
        (pageSeqFrom fetch tok i).items.filter (fun m => m.source_run_id == runId)) (n + 1)]
      have harg : (fun i => (pageSeqFrom fetch ((fetch tok).token) i).items.filter
          (fun m => m.source_run_id == runId))
          = fun i => (pageSeqFrom fetch tok (i + 1)).items.filter (fun m => m.source_run_id == runId) := by
        funext i
        rw [pageSeqFrom_shift]
      rw [List.append_assoc]
      simp only [pageSeqFrom] at harg ⊢
      rw [harg]

/-- C1: for every sequence of pages returned by the remote search call
(modelled by the deterministic source `fetch`, whose page sequence
`pageSeqFrom fetch none` is exactly the sequence obtained by passing each
page's token back unchanged, starting from `None`),
`_get_logged_models_from_run` returns the concatenation, in page order, of
the items of every page that match the source run id, and it performs
exactly `n + 1` fetches where `n` is the first index whose page has an
empty or absent continuation token — it stops there and nowhere else. -/
theorem get_logged_models_from_run_paginates
    (fetch : Option String → LoggedModelPage) (runId : String) (n fuel : Nat)
    (hstop : tokenIsEmpty (pageSeqFrom fetch none n).token = true)
    (hbefore : ∀ i, i < n → tokenIsEmpty (pageSeqFrom fetch none i).token = false)
    (hfuel : n + 1 ≤ fuel) :
    _get_logged_models_from_run (fun t => (Except.ok (fetch t) : Except Unit LoggedModelPage)) runId fuel
      = some (Except.ok
          (concatUpTo
            (fun i => (pageSeqFrom fetch none i).items.filter (fun m => m.source_run_id == runId))
            (n + 1),
           n + 1)) := by
  have h := getLoggedModelsLoop_run Unit fetch runId n fuel none [] hstop hbefore hfuel
  simpa [_get_logged_models_from_run] using h

/-- Witness for C1 on a concrete two-page source. -/
theorem get_logged_models_from_run_paginates_witness :
    _get_logged_models_from_run
        (fun t => (Except.ok
          (match t with
            | none => LoggedModelPage.mk [⟨"m1", "r"⟩, ⟨"m2", "other"⟩] (some "x")
            | some _ => LoggedModelPage.mk [⟨"m3", "r"⟩] none) : Except Unit LoggedModelPage))
        "r" 5
      = some (Except.ok ([⟨"m1", "r"⟩, ⟨"m3", "r"⟩], 2)) := by
  have h := get_logged_models_from_run_paginates
    (fun t => match t with
      | none => LoggedModelPage.mk [⟨"m1", "r"⟩, ⟨"m2", "other"⟩] (some "x")
      | some _ => LoggedModelPage.mk [⟨"m3", "r"⟩] none)
    "r" 1 5 (by decide) (by decide) (by decide)
  simpa [concatUpTo, pageSeqFrom, tokenIsEmpty] using h

/-- C5: if the first page fetch succeeds with a non-empty continuation
token and the second fetch raises, the exception propagates unchanged out
of `_get_logged_models_from_run` and the items accumulated from the first
page are not part of the result — the caller receives `Except.error e`,
which carries no partial item list. -/
theorem get_logged_models_from_run_error_propagates
    (fetch : Option String → Except ε LoggedModelPage) (runId : String)
    (p : LoggedModelPage) (e : ε) (fuel : Nat)
    (h1 : fetch none = .ok p)
    (h2 : tokenIsEmpty p.token = false)
    (h3 : fetch p.token = .error e)
    (hfuel : 2 ≤ fuel) :
    _get_logged_models_from_run fetch runId fuel = some (.error e) := by
  match fuel, hfuel with
  | fuel + 2, _ =>
    simp [_get_logged_models_from_run, getLoggedModelsLoop, h1, h2, h3]

/-- Witness for C5 on a concrete source whose second fetch fails. -/
theorem get_logged_models_from_run_error_propagates_witness :
    _get_logged_models_from_run
        (fun t => match t with
          | none => (Except.ok (LoggedModelPage.mk [⟨"m1", "r"⟩] (some "x")) : Except String LoggedModelPage)
          | some _ => Except.error "boom")
        "r" 7
      = some (Except.error "boom") :=
  get_logged_models_from_run_error_propagates
    (fun t => match t with
      | none => (Except.ok (LoggedModelPage.mk [⟨"m1", "r"⟩] (some "x")) : Except String LoggedModelPage)
      | some _ => Except.error "boom")
    "r" (LoggedModelPage.mk [⟨"m1", "r"⟩] (some "x")) "boom" 7
    rfl rfl rfl (by decide)

/-! ## Generic paginated aggregation (`search_registered_models`, `search_model_versions`)

`search_registered_models` (fluent.py lines 397-409) and
`search_model_versions` (lines 494-506) delegate their pagination to
`get_results_from_paginated_fn` from `mlflow.utils`, which is not part of
src/.  Its behaviour is therefore modelled from the spec (section 4.1,
PaginatedAggregator). -/

/-- One page of a generic paginated search result: items of type `α` plus a
continuation token. -/
structure Page (α : Type) where
  items : List α
  token : Option String
deriving DecidableEq

/-- Modelled from the spec: the per-iteration request size of the paginated
aggregator — `n = min(per_call_cap, remaining)`, where `remaining` is
`max_results − total` when a bound was given and `per_call_cap` otherwise. -/
def requestSize (cap : Nat) (maxResults : Option Nat) (total : Nat) : Nat :=
  match maxResults with
  | some k => min cap (k - total)
  | none => min cap cap

/-- Modelled from the spec: the aggregator's stop test after appending a
page — stop when the cursor is empty or the accumulated count reaches
`max_results`. -/
def stopAfterPage (maxResults : Option Nat) (tok : Option String) (total2 : Nat) : Bool :=
  tokenIsEmpty tok ||
    (match maxResults with
      | some k => total2 == k
      | none => false)

/-- Modelled from the spec: the loop of `get_results_from_paginated_fn`
(`mlflow.utils`, not under src/), per spec section 4.1: maintain a running
total and a cursor; each iteration requests `requestSize` items, appends
the returned page, passes the page's cursor on, and stops when the cursor
is empty or the total reaches `max_results`.  The second component of the
result instruments the sequence of per-call request sizes; fuel bounds the
iterations (`none` = still looping). -/
def aggregate (fetch : Nat → Option String → Page α) (cap : Nat) (maxResults : Option Nat) :
    Nat → Nat → Option String → List α → Option (List α × List Nat)
  | 0, _, _, _ => none
  | fuel+1, total, cursor, acc =>
    let n := requestSize cap maxResults total
    let page := fetch n cursor
    if stopAfterPage maxResults page.token (total + page.items.length) then
      some (acc ++ page.items, [n])
    else
      match aggregate fetch cap maxResults fuel (total + page.items.length) page.token (acc ++ page.items) with
      | none => none
      | some (items, reqs) => some (items, n :: reqs)

/-- Modelled from the spec: `get_results_from_paginated_fn` starts the
aggregation with a `None` cursor, zero total and an empty accumulator. -/
def get_results_from_paginated_fn (fetch : Nat → Option String → Page α)
    (maxResultsPerPage : Nat) (maxResults : Option Nat) (fuel : Nat) :
    Option (List α × List Nat) :=
  aggregate fetch maxResultsPerPage maxResults fuel 0 none []

/-- Per-page default cap handed to the aggregator by
`search_registered_models`; the constant lives outside src/
(`mlflow.store.model_registry`). -/
def SEARCH_REGISTERED_MODEL_MAX_RESULTS_DEFAULT : Nat := 100

/-- Per-page default cap handed to the aggregator by
`search_model_versions`; the constant lives outside src/
(`mlflow.store.model_registry`). -/
def SEARCH_MODEL_VERSION_MAX_RESULTS_DEFAULT : Nat := 10000

/-- `search_registered_models` (fluent.py lines 307-409): the filter and
ordering arguments are folded into `fetch`, which stands for the
`pagination_wrapper_func` remote call. -/
def search_registered_models (fetch : Nat → Option String → Page α)
    (maxResults : Option Nat) (fuel : Nat) : Option (List α × List Nat) :=
  get_results_from_paginated_fn fetch SEARCH_REGISTERED_MODEL_MAX_RESULTS_DEFAULT maxResults fuel

/-- `search_model_versions` (fluent.py lines 412-506): the filter and
ordering arguments are folded into `fetch`. -/
def search_model_versions (fetch : Nat → Option String → Page α)
    (maxResults : Option Nat) (fuel : Nat) : Option (List α × List Nat) :=
  get_results_from_paginated_fn fetch SEARCH_MODEL_VERSION_MAX_RESULTS_DEFAULT maxResults fuel

/-- Page sequence of a deterministic remote source under unbounded
aggregation: every call requests `cap` items, and each call is handed the
previous page's token. -/
def aggPageSeqFrom (fetch : Nat → Option String → Page α) (cap : Nat) (tok : Option String) :
    Nat → Page α
  | 0 => fetch cap tok
  | i+1 => fetch cap (aggPageSeqFrom fetch cap tok i).token

theorem aggPageSeqFrom_shift (fetch : Nat → Option String → Page α) (cap : Nat)
    (tok : Option String) (i : Nat) :
    aggPageSeqFrom fetch cap ((fetch cap tok).token) i = aggPageSeqFrom fetch cap tok (i + 1) := by
  induction i with
  | zero => rfl
  | succ i ih => simp only [aggPageSeqFrom, ih]

theorem aggregate_requests_le_cap (fetch : Nat → Option String → Page α) (cap : Nat)
    (mr : Option Nat) :
    ∀ (fuel total : Nat) (cursor : Option String) (acc items : List α) (reqs : List Nat),
      aggregate fetch cap mr fuel total cursor acc = some (items, reqs) →
      ∀ r ∈ reqs, r ≤ cap := by
  intro fuel
  induction fuel with
  | zero =>
    intro total cursor acc items reqs h
    simp [aggregate] at h
  | succ fuel ih =>
    intro total cursor acc items reqs h r hr
    simp only [aggregate] at h
    have hn : requestSize cap mr total ≤ cap := by
      unfold requestSize
      cases mr <;> exact Nat.min_le_left _ _
    split at h
    · cases h
      simp only [List.mem_singleton] at hr
      exact hr ▸ hn
    · split at h
      · cases h
      · rename_i items' reqs' heq
        cases h
        rcases List.mem_cons.mp hr with hr | hr
        · exact hr ▸ hn
        · exact ih _ _ _ _ _ heq r hr

theorem aggregate_bounded_length (fetch : Nat → Option String → Page α) (cap k : Nat)
    (honors : ∀ (n : Nat) (c : Option String), ((fetch n c).items).length ≤ n) :
    ∀ (fuel total : Nat) (cursor : Option String) (acc items : List α) (reqs : List Nat),
      acc.length = total → total ≤ k →
      aggregate fetch cap (some k) fuel total cursor acc = some (items, reqs) →
      items.length ≤ k := by
  intro fuel
  induction fuel with
  | zero =>
    intro total cursor acc items reqs _ _ h
    simp [aggregate] at h
  | succ fuel ih =>
    intro total cursor acc items reqs hacc htot h
    simp only [aggregate] at h
    have hlen : ((fetch (requestSize cap (some k) total) cursor).items).length ≤ k - total := by
      have h1 := honors (requestSize cap (some k) total) cursor
      have h2 : requestSize cap (some k) total ≤ k - total := by
        unfold requestSize
        exact Nat.min_le_right _ _
      omega
    have htot2 : total + ((fetch (requestSize cap (some k) total) cursor).items).length ≤ k := by
      omega
    split at h
    · cases h
      simp only [List.length_append, hacc]
      exact htot2
    · split at h
      · cases h
      · rename_i items' reqs' heq
        cases h
        exact ih _ _ _ _ _ (by simp [List.length_append, hacc]) htot2 heq

theorem aggregate_unbounded_run (fetch : Nat → Option String → Page α) (cap : Nat) :
    ∀ (n fuel total : Nat) (tok : Option String) (acc : List α),
      tokenIsEmpty (aggPageSeqFrom fetch cap tok n).token = true →
      (∀ i, i < n → tokenIsEmpty (aggPageSeqFrom fetch cap tok i).token = false) →
      n + 1 ≤ fuel →
      aggregate fetch cap none fuel total tok acc
        = some (acc ++ concatUpTo (fun i => (aggPageSeqFrom fetch cap tok i).items) (n + 1),
                List.replicate (n + 1) cap) := by
  intro n
  induction n with
  | zero =>
    intro fuel total tok acc hstop _ hfuel
    match fuel, hfuel with
    | fuel + 1, _ =>
      simp only [aggregate]
      have hstop' : tokenIsEmpty (fetch cap tok).token = true := hstop
      simp [requestSize, stopAfterPage, Nat.min_self, hstop', concatUpTo, aggPageSeqFrom]
  | succ n ih =>
    intro fuel total tok acc hstop hbefore hfuel
    match fuel, hfuel with
    | fuel + 1, hfuel =>
      simp only [aggregate]
      have hne : tokenIsEmpty (fetch cap tok).token = false := hbefore 0 (Nat.succ_pos n)
      have hrs : requestSize cap (none : Option Nat) total = cap := by
        simp [requestSize, Nat.min_self]
      have hrec := ih fuel (total + ((fetch cap tok).items).length) ((fetch cap tok).token)
        (acc ++ (fetch cap tok).items)
        (by rw [aggPageSeqFrom_shift]; exact hstop)
        (by intro i hi; rw [aggPageSeqFrom_shift]; exact hbefore (i + 1) (Nat.succ_lt_succ hi))
        (Nat.le_of_succ_le_succ hfuel)
      simp only [hrs, stopAfterPage, hne, Bool.false_or, Bool.or_false]
      simp only [hrec]
      simp only [Bool.false_eq_true, if_false, List.replicate_succ]
      congr 2
      rw [concatUpTo_shift (fun i => (aggPageSeqFrom fetch cap tok i).items) (n + 1)]
      have harg : (fun i => (aggPageSeqFrom fetch cap ((fetch cap tok).token) i).items)
          = fun i => (aggPageSeqFrom fetch cap tok (i + 1)).items := by
        funext i
        rw [aggPageSeqFrom_shift]
      rw [List.append_assoc]
      simp only [aggPageSeqFrom] at harg ⊢
      rw [harg]

/-- C4: with `max_results = k` given, both `search_registered_models` and
`search_model_versions` return at most `k` items (provided the remote
honours the requested page size) and never request more than their
per-page default cap in a single call; with `max_results` absent, they
request exactly the default cap each time and keep fetching until the
remote cursor is exhausted, returning the in-order concatenation of all
pages. -/
theorem search_fns_pagination_bounds (α : Type) (fetch : Nat → Option String → Page α)
    (k fuel : Nat)
    (honors : ∀ (n : Nat) (c : Option String), ((fetch n c).items).length ≤ n) :
    (∀ (items : List α) (reqs : List Nat),
        search_registered_models fetch (some k) fuel = some (items, reqs) →
        items.length ≤ k ∧ ∀ r ∈ reqs, r ≤ SEARCH_REGISTERED_MODEL_MAX_RESULTS_DEFAULT)
    ∧ (∀ (items : List α) (reqs : List Nat),
        search_model_versions fetch (some k) fuel = some (items, reqs) →
        items.length ≤ k ∧ ∀ r ∈ reqs, r ≤ SEARCH_MODEL_VERSION_MAX_RESULTS_DEFAULT)
    ∧ (∀ n : Nat,
        tokenIsEmpty (aggPageSeqFrom fetch SEARCH_REGISTERED_MODEL_MAX_RESULTS_DEFAULT none n).token = true →
        (∀ i, i < n →
          tokenIsEmpty (aggPageSeqFrom fetch SEARCH_REGISTERED_MODEL_MAX_RESULTS_DEFAULT none i).token = false) →
        n + 1 ≤ fuel →
        search_registered_models fetch none fuel
          = some (concatUpTo
              (fun i => (aggPageSeqFrom fetch SEARCH_REGISTERED_MODEL_MAX_RESULTS_DEFAULT none i).items)
              (n + 1),
              List.replicate (n + 1) SEARCH_REGISTERED_MODEL_MAX_RESULTS_DEFAULT))
    ∧ (∀ n : Nat,
        tokenIsEmpty (aggPageSeqFrom fetch SEARCH_MODEL_VERSION_MAX_RESULTS_DEFAULT none n).token = true →
        (∀ i, i < n →
          tokenIsEmpty (aggPageSeqFrom fetch SEARCH_MODEL_VERSION_MAX_RESULTS_DEFAULT none i).token = false) →
        n + 1 ≤ fuel →
        search_model_versions fetch none fuel
          = some (concatUpTo
              (fun i => (aggPageSeqFrom fetch SEARCH_MODEL_VERSION_MAX_RESULTS_DEFAULT none i).items)
              (n + 1),
              List.replicate (n + 1) SEARCH_MODEL_VERSION_MAX_RESULTS_DEFAULT)) := by
  refine ⟨?_, ?_, ?_, ?_⟩
  · intro items reqs h
    exact ⟨aggregate_bounded_length fetch _ k honors fuel 0 none [] items reqs rfl (Nat.zero_le k) h,
           aggregate_requests_le_cap fetch _ (some k) fuel 0 none [] items reqs h⟩
  · intro items reqs h
    exact ⟨aggregate_bounded_length fetch _ k honors fuel 0 none [] items reqs rfl (Nat.zero_le k) h,
           aggregate_requests_le_cap fetch _ (some k) fuel 0 none [] items reqs h⟩
  · intro n hstop hbefore hfuel
    exact aggregate_unbounded_run fetch _ n fuel 0 none [] hstop hbefore hfuel
  · intro n hstop hbefore hfuel
    exact aggregate_unbounded_run fetch _ n fuel 0 none [] hstop hbefore hfuel

/-- Remote source used by the C4 witness: it returns at most the requested
number of items and never a continuation token. -/
def fetchTakeOne : Nat → Option String → Page String :=
  fun n _ => Page.mk (["a"].take n) none

/-- Witness for C4 at a concrete remote source: with `max_results = 1` the
result has at most one item and a request of at most the cap; with
`max_results` absent the single page is returned whole after one
cap-sized request. -/
theorem search_fns_pagination_bounds_witness :
    (["a"].length ≤ 1 ∧ ∀ r ∈ [1], r ≤ SEARCH_REGISTERED_MODEL_MAX_RESULTS_DEFAULT)
    ∧ search_registered_models fetchTakeOne none 3
        = some (["a"], List.replicate 1 SEARCH_REGISTERED_MODEL_MAX_RESULTS_DEFAULT) := by
  have h := search_fns_pagination_bounds String fetchTakeOne 1 3
    (by intro n c; simp [fetchTakeOne, List.length_take])
  constructor
  · exact h.1 ["a"] [1] (by decide)
  · have h3 := h.2.2.1 0 (by decide) (by intro i hi; omega) (by decide)
    simpa [concatUpTo, aggPageSeqFrom, fetchTakeOne,
      SEARCH_REGISTERED_MODEL_MAX_RESULTS_DEFAULT] using h3

/-! ## Prompt loading (`load_prompt`, `_load_prompt_cached`, `_load_prompt_not_cached`,
`_link_prompt_async`)

Raised Python exceptions are `Except.error`; `PyErr.mlflowExc` carries an
`MlflowException` error code, `PyErr.otherExc` any other exception.  Remote
client calls and ambient state (`active_run`, `get_active_model_id`,
`get_active_trace_id`) are environment fields.  Side effects of
`load_prompt` (run linking, spawned link threads, trace registration) are
collected in a `PromptEffects` record; the outcome a spawned thread will
eventually compute is recorded as the value of `_link_prompt_async`, which
is sound because the thread body is a pure function of the environment.
The `functools.lru_cache` is an association list keyed by the call
arguments; its size-based eviction is not modelled (no claim concerns
eviction).  Messages are embedded without the original quoting. -/

/-- A prompt version entity: only the fields `load_prompt` reads. -/
structure PromptVersion where
  name : String
  version : Nat
deriving DecidableEq

/-- A raised Python exception: an `MlflowException` with its error code, or
any other exception. -/
inductive PyErr where
  | mlflowExc (code : String) (msg : String)
  | otherExc (msg : String)
deriving DecidableEq

/-- Environment of `load_prompt`: the registry client calls it makes and
the ambient tracking state it consults. -/
structure PromptEnv where
  parsePromptNameOrUri : String → Option Nat → String × Option Nat
  clientLoadPrompt : String → Option Nat → Bool → Except PyErr (Option PromptVersion)
  activeRun : Option String
  activeModelId : Option String
  activeTraceId : Option String
  linkPromptVersionToRun : String → String → Except PyErr Unit
  linkPromptVersionToModel : String → Nat → String → Except PyErr Unit

/-- The `lru_cache` state of `_load_prompt_cached`, keyed by
`(name_or_uri, version, allow_missing)`. -/
def PromptCache : Type :=
  List ((String × Option Nat × Bool) × Option PromptVersion)

/-- `_load_prompt_not_cached` (fluent.py lines 779-798): parse the
name-or-URI (the helper `parse_prompt_name_or_uri` lives outside src/ and
is an environment field), then call `client.load_prompt`, without a
version argument for `prompts:/` URIs. -/
def _load_prompt_not_cached (env : PromptEnv) (nameOrUri : String) (version : Option Nat)
    (allowMissing : Bool) : Except PyErr (Option PromptVersion) :=
  let parsed := env.parsePromptNameOrUri nameOrUri version
  if "prompts:/".toList.isPrefixOf parsed.1.toList then
    env.clientLoadPrompt parsed.1 none allowMissing
  else
    env.clientLoadPrompt parsed.1 parsed.2 allowMissing

/-- `_load_prompt_cached` (fluent.py lines 767-776): on a cache hit return
the stored value unchanged; on a miss delegate to
`_load_prompt_not_cached` and store the returned value (`lru_cache` does
not cache a raised exception). -/
def _load_prompt_cached (env : PromptEnv) (cache : PromptCache) (nameOrUri : String)
    (version : Option Nat) (allowMissing : Bool) :
    PromptCache × Except PyErr (Option PromptVersion) :=
  match cache.lookup (nameOrUri, version, allowMissing) with
  | some v => (cache, .ok v)
  | none =>
    match _load_prompt_not_cached env nameOrUri version allowMissing with
    | .ok v => (((nameOrUri, version, allowMissing), v) :: cache, .ok v)
    | .error e => (cache, .error e)

/-- `_link_prompt_async` (fluent.py lines 736-750), the body of the
background link thread: call `client.link_prompt_version_to_model` inside
`try/except Exception`; on failure swallow the exception and emit a
warning log line.  The result is the list of log lines emitted. -/
def _link_prompt_async (env : PromptEnv) (prompt : PromptVersion) (modelId : String) :
    Except PyErr (List String) :=
  match env.linkPromptVersionToModel prompt.name prompt.version modelId with
  | .ok _ => .ok []
  | .error _ =>
    .ok ["Failed to link prompt " ++ prompt.name ++ " version " ++ toString prompt.version
          ++ " to model " ++ modelId ++ "."]

/-- Observable side effects of one `load_prompt` call: synchronous run
links performed, outcomes of the spawned background link threads, and
trace-manager prompt registrations. -/
structure PromptEffects where
  runLinks : List (String × String)
  modelLinkThreads : List (Except PyErr (List String))
  traceRegistrations : List (String × PromptVersion)

/-- The lookup phase of `load_prompt` (fluent.py lines 693-713): alias
loads (a name containing `@`, Python `"@" in name_or_uri`) bypass the
cache; otherwise the cached lookup runs first and, if it produced `None`,
its result is discarded in favour of a fresh uncached lookup (Python
`a or b`). -/
def load_prompt_lookup (env : PromptEnv) (cache : PromptCache) (nameOrUri : String)
    (version : Option Nat) (allowMissing : Bool) :
    PromptCache × Except PyErr (Option PromptVersion) :=
  if nameOrUri.toList.contains '@' then
    (cache, _load_prompt_not_cached env nameOrUri version allowMissing)
  else
    match _load_prompt_cached env cache nameOrUri version allowMissing with
    | (c2, .ok none) => (c2, _load_prompt_not_cached env nameOrUri version allowMissing)
    | r => r

/-- The effect phase of `load_prompt` after a prompt was found (fluent.py
lines 728-762): spawn the background link thread when `link_to_model` is
set and a model id resolves (the explicit argument, else the active model
id), and register the prompt with the active trace if any. -/
def load_prompt_tail (env : PromptEnv) (prompt : PromptVersion) (linkToModel : Bool)
    (modelId : Option String) (runLinks : List (String × String)) : PromptEffects :=
  let threads := if linkToModel then
      match (match modelId with | some m => some m | none => env.activeModelId) with
      | some mid => [_link_prompt_async env prompt mid]
      | none => []
    else []
  let traces := match env.activeTraceId with
    | some tid => [(tid, prompt)]
    | none => []
  ⟨runLinks, threads, traces⟩

/-- `load_prompt` (fluent.py lines 649-764): look the prompt up, return
`none` immediately (no effects) when it is missing, otherwise link it to
the active run synchronously (a failure there propagates), spawn the
background model-link thread and register with the active trace. -/
def load_prompt (env : PromptEnv) (cache : PromptCache) (nameOrUri : String)
    (version : Option Nat) (allowMissing linkToModel : Bool) (modelId : Option String) :
    PromptCache × Except PyErr (Option PromptVersion × PromptEffects) :=
  match load_prompt_lookup env cache nameOrUri version allowMissing with
  | (c2, .error e) => (c2, .error e)
  | (c2, .ok none) => (c2, .ok (none, ⟨[], [], []⟩))
  | (c2, .ok (some prompt)) =>
    match env.activeRun with
    | some rid =>
      match env.linkPromptVersionToRun rid
          ("prompts:/" ++ prompt.name ++ "/" ++ toString prompt.version) with
      | .error e => (c2, .error e)
      | .ok _ =>
        (c2, .ok (some prompt, load_prompt_tail env prompt linkToModel modelId
          [(rid, "prompts:/" ++ prompt.name ++ "/" ++ toString prompt.version)]))
    | none => (c2, .ok (some prompt, load_prompt_tail env prompt linkToModel modelId []))

/-- Replace the `link_prompt_version_to_model` client call of an
environment, leaving every other field unchanged. -/
def withLinkFn (env : PromptEnv) (f : String → Nat → String → Except PyErr Unit) : PromptEnv :=
  ⟨env.parsePromptNameOrUri, env.clientLoadPrompt, env.activeRun, env.activeModelId,
   env.activeTraceId, env.linkPromptVersionToRun, f⟩

theorem load_prompt_cache_component (env : PromptEnv) (cache : PromptCache) (nameOrUri : String)
    (version : Option Nat) (allowMissing linkToModel : Bool) (modelId : Option String) :
    (load_prompt env cache nameOrUri version allowMissing linkToModel modelId).1
      = (load_prompt_lookup env cache nameOrUri version allowMissing).1 := by
  unfold load_prompt
  rcases hl : load_prompt_lookup env cache nameOrUri version allowMissing with ⟨c2, r⟩
  match r with
  | .error e => rfl
  | .ok none => rfl
  | .ok (some p) =>
    dsimp only []
    cases har : env.activeRun with
    | none => rfl
    | some rid =>
      dsimp only []
      cases hx : env.linkPromptVersionToRun rid
          ("prompts:/" ++ p.name ++ "/" ++ toString p.version) with
      | error e => rfl
      | ok u => rfl

theorem load_prompt_result_of_lookup (env : PromptEnv) (cache : PromptCache) (nameOrUri : String)
    (version : Option Nat) (allowMissing linkToModel : Bool) (modelId : Option String)
    (hrun : ∀ rid uri, env.linkPromptVersionToRun rid uri = Except.ok ()) :
    (load_prompt env cache nameOrUri version allowMissing linkToModel modelId).2.map Prod.fst
      = (load_prompt_lookup env cache nameOrUri version allowMissing).2 := by
  unfold load_prompt
  rcases hl : load_prompt_lookup env cache nameOrUri version allowMissing with ⟨c2, r⟩
  match r with
  | .error e => simp [Except.map]
  | .ok none => simp [Except.map]
  | .ok (some p) =>
    cases hr : env.activeRun with
    | none => simp [Except.map]
    | some rid =>
      simp [hrun rid ("prompts:/" ++ p.name ++ "/" ++ toString p.version), Except.map]

/-- C2: any exception raised inside the background link function is caught
and turned into a warning log line — `_link_prompt_async` returns normally
for every outcome of the `link_prompt_version_to_model` call — and the
prompt returned by `load_prompt` does not depend on that call at all: the
result prompt under an arbitrary (possibly failing) link function equals
the result prompt under the original environment. -/
theorem load_prompt_link_failure_absorbed (env : PromptEnv)
    (f : String → Nat → String → Except PyErr Unit) (cache : PromptCache)
    (nameOrUri : String) (version : Option Nat) (allowMissing linkToModel : Bool)
    (modelId : Option String) :
    (∀ (p : PromptVersion) (mid : String),
        ∃ logs, _link_prompt_async (withLinkFn env f) p mid = Except.ok logs)
    ∧ (load_prompt (withLinkFn env f) cache nameOrUri version allowMissing linkToModel modelId).2.map Prod.fst
        = (load_prompt env cache nameOrUri version allowMissing linkToModel modelId).2.map Prod.fst := by
  constructor
  · intro p mid
    have hproj : (withLinkFn env f).linkPromptVersionToModel = f := rfl
    unfold _link_prompt_async
    rw [hproj]
    cases hf : f p.name p.version mid with
    | ok u => exact ⟨[], rfl⟩
    | error e => exact ⟨_, rfl⟩
  · have hlookup : load_prompt_lookup (withLinkFn env f) cache nameOrUri version allowMissing
        = load_prompt_lookup env cache nameOrUri version allowMissing := rfl
    have hrun : (withLinkFn env f).activeRun = env.activeRun := rfl
    have hlink : (withLinkFn env f).linkPromptVersionToRun = env.linkPromptVersionToRun := rfl
    unfold load_prompt
    rw [hlookup, hrun, hlink]
    rcases hl : load_prompt_lookup env cache nameOrUri version allowMissing with ⟨c2, r⟩
    match r with
    | .error e => rfl
    | .ok none => rfl
    | .ok (some p) =>
      dsimp only []
      cases har : env.activeRun with
      | none => rfl
      | some rid =>
        dsimp only []
        cases hx : env.linkPromptVersionToRun rid
            ("prompts:/" ++ p.name ++ "/" ++ toString p.version) with
        | error e => rfl
        | ok u => rfl

/-- C7: alias loads (a name containing `@`) bypass the cache entirely —
the cache is returned unchanged and the result is that of the uncached
lookup; for other names, when the cached lookup yields `None`, the
function silently falls back to a fresh uncached lookup and uses its
result.  (The active-run link is assumed to succeed so that the prompt
outcome is visible in the final result.) -/
theorem load_prompt_cache_fallback (env : PromptEnv) (cache : PromptCache)
    (nameOrUri : String) (version : Option Nat) (allowMissing linkToModel : Bool)
    (modelId : Option String)
    (hrun : ∀ rid uri, env.linkPromptVersionToRun rid uri = Except.ok ()) :
    (nameOrUri.toList.contains '@' = true →
      (load_prompt env cache nameOrUri version allowMissing linkToModel modelId).1 = cache
      ∧ (load_prompt env cache nameOrUri version allowMissing linkToModel modelId).2.map Prod.fst
          = _load_prompt_not_cached env nameOrUri version allowMissing)
    ∧ (nameOrUri.toList.contains '@' = false →
      (_load_prompt_cached env cache nameOrUri version allowMissing).2 = Except.ok none →
      (load_prompt env cache nameOrUri version allowMissing linkToModel modelId).2.map Prod.fst
          = _load_prompt_not_cached env nameOrUri version allowMissing) := by
  constructor
  · intro hat
    have hl : load_prompt_lookup env cache nameOrUri version allowMissing
        = (cache, _load_prompt_not_cached env nameOrUri version allowMissing) := by
      unfold load_prompt_lookup
      rw [if_pos hat]
    constructor
    · rw [load_prompt_cache_component, hl]
    · rw [load_prompt_result_of_lookup env cache nameOrUri version allowMissing linkToModel
        modelId hrun, hl]
  · intro hat hcached
    rcases hc : _load_prompt_cached env cache nameOrUri version allowMissing with ⟨c2, r⟩
    rw [hc] at hcached
    have hr : r = Except.ok none := hcached
    have hl : load_prompt_lookup env cache nameOrUri version allowMissing
        = (c2, _load_prompt_not_cached env nameOrUri version allowMissing) := by
      unfold load_prompt_lookup
      rw [if_neg (by rw [hat]; exact Bool.false_ne_true), hc, hr]
    rw [load_prompt_result_of_lookup env cache nameOrUri version allowMissing linkToModel
      modelId hrun, hl]

/-- C10: with `allow_missing = True`, when both the cached lookup and the
uncached lookup return `None`, `load_prompt` returns `None` and performs
no side effect: no run link, no background link thread, no trace
registration. -/
theorem load_prompt_missing_no_effects (env : PromptEnv) (cache : PromptCache)
    (nameOrUri : String) (version : Option Nat) (linkToModel : Bool) (modelId : Option String)
    (hcached : (_load_prompt_cached env cache nameOrUri version true).2 = Except.ok none)
    (huncached : _load_prompt_not_cached env nameOrUri version true = Except.ok none) :
    (load_prompt env cache nameOrUri version true linkToModel modelId).2
      = Except.ok (none, ⟨[], [], []⟩) := by
  have hl : (load_prompt_lookup env cache nameOrUri version true).2 = Except.ok none := by
    unfold load_prompt_lookup
    cases hat : nameOrUri.toList.contains '@' with
    | true =>
      rw [if_pos rfl]
      exact huncached
    | false =>
      rw [if_neg Bool.false_ne_true]
      rcases hc : _load_prompt_cached env cache nameOrUri version true with ⟨c2, r⟩
      rw [hc] at hcached
      have hr : r = Except.ok none := hcached
      subst hr
      exact huncached
  unfold load_prompt
  rcases hlk : load_prompt_lookup env cache nameOrUri version true with ⟨c2, r⟩
  rw [hlk] at hl
  have hr : r = Except.ok none := hl
  subst hr
  rfl

/-- A concrete prompt environment for the witnesses: the client always
finds prompt `p` version 1, a run and a model are active, linking
succeeds. -/
def promptEnvW : PromptEnv :=
  ⟨fun n v => (n, v),
   fun _ _ _ => Except.ok (some ⟨"p", 1⟩),
   some "run1", some "model1", none,
   fun _ _ => Except.ok (),
   fun _ _ _ => Except.ok ()⟩

/-- Witness for C7: at a concrete environment, an alias load leaves the
cache unchanged and takes the uncached result, and a cached `None` falls
back to the uncached result. -/
theorem load_prompt_cache_fallback_witness :
    ((load_prompt promptEnvW [] "p@prod" none false true none).1 = ([] : PromptCache)
      ∧ (load_prompt promptEnvW [] "p@prod" none false true none).2.map Prod.fst
          = _load_prompt_not_cached promptEnvW "p@prod" none false)
    ∧ ((load_prompt promptEnvW [(("q", none, false), none)] "q" none false true none).2.map Prod.fst
          = _load_prompt_not_cached promptEnvW "q" none false) := by
  constructor
  · exact (load_prompt_cache_fallback promptEnvW [] "p@prod" none false true none
      (fun _ _ => rfl)).1 (by decide)
  · exact (load_prompt_cache_fallback promptEnvW [(("q", none, false), none)] "q" none false true
      none (fun _ _ => rfl)).2 (by decide) rfl

/-- Witness for C10: at a concrete environment whose client never finds
the prompt, `load_prompt` returns `None` with empty effects. -/
theorem load_prompt_missing_no_effects_witness :
    (load_prompt
        ⟨fun n v => (n, v), fun _ _ _ => Except.ok none, some "run1", some "model1",
         some "trace1", fun _ _ => Except.ok (), fun _ _ _ => Except.ok ()⟩
        [] "q" none true true (some "model1")).2
      = Except.ok (none, ⟨[], [], []⟩) :=
  load_prompt_missing_no_effects
    ⟨fun n v => (n, v), fun _ _ _ => Except.ok none, some "run1", some "model1",
     some "trace1", fun _ _ => Except.ok (), fun _ _ _ => Except.ok ()⟩
    [] "q" none true (some "model1") rfl rfl

/-! ## Model registration (`register_model`, `_register_model`)

The registry client calls and URI helpers that live outside src/
(`RunsArtifactRepository`, `_parse_model_id_if_present`, `MlflowClient`)
are environment fields.  The `env_pack="databricks_model_serving"` branch
and the UC URL printing, which only perform I/O, are not modelled: the
embedding corresponds to the default `env_pack=None` call.  The
user-supplied `tags`, `await_registration_for` and `local_model_path`
arguments are forwarded opaquely to `client._create_model_version` and are
elided from the embedded call record.  JSON
round-tripping of the `mlflow.modelVersions` tag value is abstracted by
storing the decoded entry list (`json.dumps`/`json.loads` are mutually
inverse on it). -/

/-- The model version returned by `client._create_model_version`. -/
structure ModelVersion where
  name : String
  version : String
deriving DecidableEq

/-- One entry of the decoded `mlflow.modelVersions` tag value. -/
structure ModelVersionEntry where
  name : String
  version : String
deriving DecidableEq

/-- `mlflow_tags.MLFLOW_MODEL_VERSIONS` (constant defined outside src/). -/
def MLFLOW_MODEL_VERSIONS : String := "mlflow.modelVersions"

/-- `MLMODEL_FILE_NAME` from `mlflow.models.model`. -/
def MLMODEL_FILE_NAME : String := "MLmodel"

/-- One model output of a run (`run.outputs.model_outputs`). -/
structure ModelOutput where
  model_id : String
  step : Int
deriving DecidableEq

/-- `run.outputs`. -/
structure RunOutputs where
  model_outputs : List ModelOutput
deriving DecidableEq

/-- `run.info`: the fields `_register_model` reads. -/
structure RunInfo where
  run_id : String
  experiment_id : String
deriving DecidableEq

/-- A tracking run (`client.get_run`). -/
structure MRun where
  info : RunInfo
  outputs : Option RunOutputs
deriving DecidableEq

/-- The logged model read back by `client.get_logged_model`; its tags hold
decoded `mlflow.modelVersions` values (other tags are never read or
written by this module, see the section comment). -/
structure LoggedModelInfo where
  tags : List (String × List ModelVersionEntry)
deriving DecidableEq

/-- Environment of `_register_model`: every remote client call and
external URI helper it uses.  `searchLoggedModels` takes the experiment
id, the model-name filter and the page token. -/
structure RegEnv where
  createRegisteredModel : String → Except PyErr Unit
  isRunsUri : String → Bool
  parseRunsUri : String → String × String
  listRunArtifacts : String → List String
  getUnderlyingUri : String → String
  getRun : String → Except PyErr MRun
  searchLoggedModels : String → String → Option String → Except PyErr LoggedModelPage
  parseModelIdIfPresent : String → Option String
  createModelVersion : String → String → Option String → Option String → Except PyErr ModelVersion
  getLoggedModel : String → Except PyErr LoggedModelInfo
  setLoggedModelTags : String → List (String × List ModelVersionEntry) → Except PyErr Unit

/-- Python `max(x :: xs, key=k)`: fold keeping the current best and
replacing it only on a strictly greater key, so ties keep the earliest
element. -/
def pyMax (k : α → Int) (x : α) (xs : List α) : α :=
  xs.foldl (fun best y => if k best < k y then y else best) x

/-- Lookup in the dict comprehension
`{m_o.model_id: m_o.step for m_o in run.outputs.model_outputs}`; a
repeated key keeps the last entry, hence the `reverse`. -/
def modelIdToStep (outs : RunOutputs) (mid : String) : Option Int :=
  (outs.model_outputs.reverse.find? (fun o => o.model_id == mid)).map (fun o => o.step)

/-- The branch of `_register_model` (fluent.py lines 177-198) that picks a
logged model once the run's matching logged models are known: none found
is a `NOT_FOUND` `MlflowException`; several found need `run.outputs` (else
`INVALID_PARAMETER_VALUE`) and pick the model logged at the largest step.
Python's `max` computes `model_id_to_step[lm.model_id]` for the matched
models in list order, so a matched model id absent from the step dict
raises a `KeyError` at the first such element, before any registry call;
the embedding returns that error (`KeyError` is not an `MlflowException`,
hence `PyErr.otherExc`).  When every id is present, the `getD 0` in the
key function is never the default and agrees with the dict lookup. -/
def resolveFromLoggedModels (run : MRun) (run_id artifact_path : String)
    (lms : List LoggedModel) : Except PyErr (Option String × Option String × String) :=
  match lms with
  | [] => .error (PyErr.mlflowExc "NOT_FOUND"
      ("Unable to find a logged_model with artifact_path " ++ artifact_path
        ++ " under run " ++ run_id))
  | [lm] => .ok (some run_id, some lm.model_id, "models:/" ++ lm.model_id)
  | lm :: lm2 :: rest =>
    match run.outputs with
    | none => .error (PyErr.mlflowExc "INVALID_PARAMETER_VALUE"
        ("Multiple logged models found for run " ++ run_id
          ++ ". Cannot determine which model to register. Please use `models:/<model_id>` instead."))
    | some outs =>
      match (lm :: lm2 :: rest).find? (fun m => (modelIdToStep outs m.model_id).isNone) with
      | some missing => .error (PyErr.otherExc ("KeyError: " ++ missing.model_id))
      | none =>
        let chosen := pyMax (fun m => (modelIdToStep outs m.model_id).getD 0) lm (lm2 :: rest)
        .ok (some run_id, some chosen.model_id, "models:/" ++ chosen.model_id)

/-- Source/run/model resolution of `_register_model` (fluent.py lines
160-198): a `runs:/` URI whose artifact directory holds an `MLmodel` file
keeps the underlying artifact URI as source; otherwise the run's logged
models are searched and one is chosen; any other URI is passed through. -/
def resolveModelSource (env : RegEnv) (fuel : Nat) (modelUri : String) :
    Option (Except PyErr (Option String × Option String × String)) :=
  if env.isRunsUri modelUri then
    match env.parseRunsUri modelUri with
    | (run_id, artifact_path) =>
      if (env.listRunArtifacts modelUri).contains MLMODEL_FILE_NAME then
        some (.ok (some run_id, none, env.getUnderlyingUri modelUri))
      else
        match env.getRun run_id with
        | .error e => some (.error e)
        | .ok run =>
          match _get_logged_models_from_run
              (env.searchLoggedModels run.info.experiment_id artifact_path)
              run.info.run_id fuel with
          | none => none
          | some (.error e) => some (.error e)
          | some (.ok (lms, _)) => some (resolveFromLoggedModels run run_id artifact_path lms)
  else
    some (.ok (none, none, modelUri))

/-- One recorded `client._create_model_version` call. -/
structure CreateVersionCall where
  name : String
  source : String
  run_id : Option String
  model_id : Option String
deriving DecidableEq

/-- Observable registry mutations of one `_register_model` call. -/
structure RegEffects where
  createVersionCalls : List CreateVersionCall
  setTagCalls : List (String × List (String × List ModelVersionEntry))
deriving DecidableEq

/-- The tail of `_register_model` (fluent.py lines 211-256): create the
model version, and when a model id was resolved append a
`{name, version}` entry to the logged model's `mlflow.modelVersions` tag
(starting from the empty list when the tag is absent) with a single
`set_logged_model_tags` call whose dict holds exactly that one tag. -/
def finishRegister (env : RegEnv) (name : String) (run_id : Option String)
    (model_id : Option String) (source : String) : Except PyErr (ModelVersion × RegEffects) :=
  match env.createModelVersion name source run_id model_id with
  | .error e => .error e
  | .ok cv =>
    match model_id with
    | none => .ok (cv, ⟨[⟨name, source, run_id, none⟩], []⟩)
    | some mid =>
      match env.getLoggedModel mid with
      | .error e => .error e
      | .ok model =>
        let newValue := ((model.tags.lookup MLFLOW_MODEL_VERSIONS).getD [])
          ++ [ModelVersionEntry.mk cv.name cv.version]
        match env.setLoggedModelTags mid [(MLFLOW_MODEL_VERSIONS, newValue)] with
        | .error e => .error e
        | .ok _ => .ok (cv, ⟨[⟨name, source, run_id, some mid⟩],
            [(mid, [(MLFLOW_MODEL_VERSIONS, newValue)])]⟩)

/-- `_register_model` after the create-registered-model step (fluent.py
lines 160-276): resolve the source, fall back to
`_parse_model_id_if_present` when no model id was resolved, and finish. -/
def _register_model_after_create (env : RegEnv) (fuel : Nat) (modelUri name : String) :
    Option (Except PyErr (ModelVersion × RegEffects)) :=
  match resolveModelSource env fuel modelUri with
  | none => none
  | some (.error e) => some (.error e)
  | some (.ok (run_id, model_id0, source)) =>
    let model_id := match model_id0 with
      | some mid => some mid
      | none => env.parseModelIdIfPresent modelUri
    some (finishRegister env name run_id model_id source)

/-- `_register_model` (fluent.py lines 136-276): `create_registered_model`
inside `try / except MlflowException`, absorbing only the two
already-exists error codes; every other `MlflowException`, and any other
exception, propagates. -/
def _register_model (env : RegEnv) (fuel : Nat) (modelUri name : String) :
    Option (Except PyErr (ModelVersion × RegEffects)) :=
  match env.createRegisteredModel name with
  | .error (PyErr.mlflowExc code msg) =>
    if code == "RESOURCE_ALREADY_EXISTS" || code == "ALREADY_EXISTS" then
      _register_model_after_create env fuel modelUri name
    else some (.error (PyErr.mlflowExc code msg))
  | .error e => some (.error e)
  | .ok _ => _register_model_after_create env fuel modelUri name

/-- `register_model` (fluent.py lines 59-133) delegates to
`_register_model`. -/
def register_model (env : RegEnv) (fuel : Nat) (modelUri name : String) :
    Option (Except PyErr (ModelVersion × RegEffects)) :=
  _register_model env fuel modelUri name

/-- Replace the `create_registered_model` client call of an environment,
leaving every other field unchanged. -/
def withCreateFn (env : RegEnv) (f : String → Except PyErr Unit) : RegEnv :=
  ⟨f, env.isRunsUri, env.parseRunsUri, env.listRunArtifacts, env.getUnderlyingUri, env.getRun,
   env.searchLoggedModels, env.parseModelIdIfPresent, env.createModelVersion,
   env.getLoggedModel, env.setLoggedModelTags⟩

theorem pyMax_mem (k : α → Int) : ∀ (xs : List α) (x : α), pyMax k x xs ∈ x :: xs := by
  intro xs
  induction xs with
  | nil =>
    intro x
    simp [pyMax]
  | cons y ys ih =>
    intro x
    have h : pyMax k x (y :: ys) = pyMax k (if k x < k y then y else x) ys := rfl
    have h2 := ih (if k x < k y then y else x)
    rw [h]
    rcases List.mem_cons.mp h2 with h3 | h3
    · rw [h3]
      by_cases hxy : k x < k y
      · rw [if_pos hxy]
        exact List.mem_cons_of_mem x (List.mem_cons_self y ys)
      · rw [if_neg hxy]
        exact List.mem_cons_self x (y :: ys)
    · exact List.mem_cons_of_mem x (List.mem_cons_of_mem y h3)

theorem pyMax_key_le (k : α → Int) :
    ∀ (xs : List α) (x y : α), y ∈ x :: xs → k y ≤ k (pyMax k x xs) := by
  intro xs
  induction xs with
  | nil =>
    intro x y hy
    rcases List.mem_cons.mp hy with h | h
    · rw [h]
      exact le_refl _
    · exact absurd h (List.not_mem_nil y)
  | cons z zs ih =>
    intro x y hy
    have hs : k z ≤ k (if k x < k z then z else x) ∧ k x ≤ k (if k x < k z then z else x) := by
      by_cases hxz : k x < k z
      · rw [if_pos hxz]
        exact ⟨le_refl _, le_of_lt hxz⟩
      · rw [if_neg hxz]
        exact ⟨le_of_not_lt hxz, le_refl _⟩
    have hmain : k (if k x < k z then z else x) ≤ k (pyMax k (if k x < k z then z else x) zs) :=
      ih (if k x < k z then z else x) _ (List.mem_cons_self _ _)
    have hgoal : pyMax k x (z :: zs) = pyMax k (if k x < k z then z else x) zs := rfl
    rw [hgoal]
    rcases List.mem_cons.mp hy with h | h
    · rw [h]
      exact le_trans hs.2 hmain
    · rcases List.mem_cons.mp h with h2 | h2
      · rw [h2]
        exact le_trans hs.1 hmain
      · exact ih _ y (List.mem_cons_of_mem _ h2)

theorem register_model_runs_uri (env : RegEnv) (fuel : Nat)
    (modelUri name run_id artifact_path : String) (run : MRun)
    (lms : List LoggedModel) (calls : Nat)
    (hcreate : env.createRegisteredModel name = Except.ok ())
    (hruns : env.isRunsUri modelUri = true)
    (hparse : env.parseRunsUri modelUri = (run_id, artifact_path))
    (hart : (env.listRunArtifacts modelUri).contains MLMODEL_FILE_NAME = false)
    (hrun : env.getRun run_id = Except.ok run)
    (hglm : _get_logged_models_from_run
        (env.searchLoggedModels run.info.experiment_id artifact_path)
        run.info.run_id fuel = some (Except.ok (lms, calls))) :
    register_model env fuel modelUri name
      = match resolveFromLoggedModels run run_id artifact_path lms with
        | .error e => some (.error e)
        | .ok (rid, mid0, source) =>
          some (finishRegister env name rid
            (match mid0 with
              | some mid => some mid
              | none => env.parseModelIdIfPresent modelUri)
            source) := by
  unfold register_model _register_model
  rw [hcreate]
  dsimp only []
  unfold _register_model_after_create resolveModelSource
  rw [if_pos hruns, hparse]
  dsimp only []
  rw [if_neg (by rw [hart]; exact Bool.false_ne_true), hrun]
  dsimp only []
  rw [hglm]
  dsimp only []
  rcases hres : resolveFromLoggedModels run run_id artifact_path lms with e | ⟨rid, mid0, source⟩
  · rfl
  · rfl

/-- C3: when `create_registered_model` raises an `MlflowException` whose
error code is `RESOURCE_ALREADY_EXISTS` or `ALREADY_EXISTS`,
`register_model` behaves exactly as if creation had succeeded (it proceeds
to create a new version under the existing name); an `MlflowException`
with any other error code propagates unchanged to the caller. -/
theorem register_model_already_exists_absorbed (env : RegEnv) (fuel : Nat)
    (modelUri name code msg : String) :
    ((code = "RESOURCE_ALREADY_EXISTS" ∨ code = "ALREADY_EXISTS") →
      register_model (withCreateFn env (fun _ => Except.error (PyErr.mlflowExc code msg)))
          fuel modelUri name
        = register_model (withCreateFn env (fun _ => Except.ok ())) fuel modelUri name)
    ∧ (code ≠ "RESOURCE_ALREADY_EXISTS" → code ≠ "ALREADY_EXISTS" →
      register_model (withCreateFn env (fun _ => Except.error (PyErr.mlflowExc code msg)))
          fuel modelUri name
        = some (Except.error (PyErr.mlflowExc code msg))) := by
  constructor
  · intro h
    have hcond : (code == "RESOURCE_ALREADY_EXISTS" || code == "ALREADY_EXISTS") = true := by
      rcases h with h | h <;> simp [h]
    have hc1 : (withCreateFn env
        (fun _ => Except.error (PyErr.mlflowExc code msg))).createRegisteredModel name
        = Except.error (PyErr.mlflowExc code msg) := rfl
    have hc2 : (withCreateFn env (fun _ => Except.ok ())).createRegisteredModel name
        = Except.ok () := rfl
    unfold register_model _register_model
    rw [hc1, hc2]
    dsimp only []
    rw [hcond]
    rfl
  · intro h1 h2
    have hcond : (code == "RESOURCE_ALREADY_EXISTS" || code == "ALREADY_EXISTS") = false := by
      simp only [Bool.or_eq_false_iff, beq_eq_false_iff_ne, ne_eq]
      exact ⟨h1, h2⟩
    have hc1 : (withCreateFn env
        (fun _ => Except.error (PyErr.mlflowExc code msg))).createRegisteredModel name
        = Except.error (PyErr.mlflowExc code msg) := rfl
    unfold register_model _register_model
    rw [hc1]
    dsimp only []
    rw [hcond]
    rfl

/-- Environment used by the C3 witness: a plain (non-`runs:/`) URI with a
model id in it, so registration runs to completion. -/
def envRegW : RegEnv :=
  ⟨fun _ => Except.ok (), fun _ => false, fun _ => ("", ""), fun _ => [], fun u => u,
   fun _ => Except.error (PyErr.otherExc "no run"),
   fun _ _ _ => Except.error (PyErr.otherExc "no search"),
   fun _ => some "m1",
   fun n _ _ _ => Except.ok (ModelVersion.mk n "1"),
   fun _ => Except.ok (LoggedModelInfo.mk []),
   fun _ _ => Except.ok ()⟩

/-- Witness for C3: at a concrete environment, an `ALREADY_EXISTS` failure
of creation gives the same result as successful creation, while an
`INTERNAL_ERROR` failure propagates. -/
theorem register_model_already_exists_absorbed_witness :
    register_model (withCreateFn envRegW
        (fun _ => Except.error (PyErr.mlflowExc "ALREADY_EXISTS" "dup"))) 1 "models:/m1" "nm"
      = register_model (withCreateFn envRegW (fun _ => Except.ok ())) 1 "models:/m1" "nm"
    ∧ register_model (withCreateFn envRegW
        (fun _ => Except.error (PyErr.mlflowExc "INTERNAL_ERROR" "x"))) 1 "models:/m1" "nm"
      = some (Except.error (PyErr.mlflowExc "INTERNAL_ERROR" "x")) := by
  constructor
  · exact (register_model_already_exists_absorbed envRegW 1 "models:/m1" "nm"
      "ALREADY_EXISTS" "dup").1 (Or.inr rfl)
  · exact (register_model_already_exists_absorbed envRegW 1 "models:/m1" "nm"
      "INTERNAL_ERROR" "x").2 (by decide) (by decide)

/-- C6: for a `runs:/` URI whose run has no `MLmodel` artifact at the
artifact path and no logged model matching that name under the run,
`register_model` raises an `MlflowException` with error code `NOT_FOUND`. -/
theorem register_model_not_found (env : RegEnv) (fuel : Nat)
    (modelUri name run_id artifact_path : String) (run : MRun) (calls : Nat)
    (hcreate : env.createRegisteredModel name = Except.ok ())
    (hruns : env.isRunsUri modelUri = true)
    (hparse : env.parseRunsUri modelUri = (run_id, artifact_path))
    (hart : (env.listRunArtifacts modelUri).contains MLMODEL_FILE_NAME = false)
    (hrun : env.getRun run_id = Except.ok run)
    (hglm : _get_logged_models_from_run
        (env.searchLoggedModels run.info.experiment_id artifact_path)
        run.info.run_id fuel = some (Except.ok ([], calls))) :
    register_model env fuel modelUri name
      = some (Except.error (PyErr.mlflowExc "NOT_FOUND"
          ("Unable to find a logged_model with artifact_path " ++ artifact_path
            ++ " under run " ++ run_id))) := by
  rw [register_model_runs_uri env fuel modelUri name run_id artifact_path run [] calls
    hcreate hruns hparse hart hrun hglm]
  rfl

/-- Environment used by the C6 witness: the artifact listing is empty and
the logged-model search returns a single empty page. -/
def envC6 : RegEnv :=
  ⟨fun _ => Except.ok (), fun _ => true, fun _ => ("r1", "mname"), fun _ => [], fun u => u,
   fun _ => Except.ok (MRun.mk (RunInfo.mk "r1" "e1") none),
   fun _ _ _ => Except.ok (LoggedModelPage.mk [] none),
   fun _ => none,
   fun n _ _ _ => Except.ok (ModelVersion.mk n "1"),
   fun _ => Except.ok (LoggedModelInfo.mk []),
   fun _ _ => Except.ok ()⟩

/-- Witness for C6 at a concrete environment. -/
theorem register_model_not_found_witness :
    register_model envC6 1 "runs:/r1/mname" "nm"
      = some (Except.error (PyErr.mlflowExc "NOT_FOUND"
          ("Unable to find a logged_model with artifact_path " ++ "mname"
            ++ " under run " ++ "r1"))) :=
  register_model_not_found envC6 1 "runs:/r1/mname" "nm" "r1" "mname"
    (MRun.mk (RunInfo.mk "r1" "e1") none) 1 rfl rfl rfl rfl rfl rfl

/-- C8: for a `runs:/` URI where several logged models match the artifact
path, when the run has no recorded outputs `register_model` raises an
`INVALID_PARAMETER_VALUE` `MlflowException`; when the outputs' step dict
covers every matched model id it registers the model chosen by Python
`max` over the step dict — a member of the matched models whose step is
greatest — and continues with `source = models:/<chosen id>`; and when
some matched id is missing from the step dict the `KeyError` Python
raises inside the `max` key function propagates and no registry call is
made. -/
theorem register_model_multiple_matches (env : RegEnv) (fuel : Nat)
    (modelUri name run_id artifact_path : String) (run : MRun) (calls : Nat)
    (lm1 lm2 : LoggedModel) (rest : List LoggedModel)
    (hcreate : env.createRegisteredModel name = Except.ok ())
    (hruns : env.isRunsUri modelUri = true)
    (hparse : env.parseRunsUri modelUri = (run_id, artifact_path))
    (hart : (env.listRunArtifacts modelUri).contains MLMODEL_FILE_NAME = false)
    (hrun : env.getRun run_id = Except.ok run)
    (hglm : _get_logged_models_from_run
        (env.searchLoggedModels run.info.experiment_id artifact_path)
        run.info.run_id fuel = some (Except.ok (lm1 :: lm2 :: rest, calls))) :
    (run.outputs = none →
      register_model env fuel modelUri name
        = some (Except.error (PyErr.mlflowExc "INVALID_PARAMETER_VALUE"
            ("Multiple logged models found for run " ++ run_id
              ++ ". Cannot determine which model to register. Please use `models:/<model_id>` instead."))))
    ∧ (∀ outs, run.outputs = some outs →
        (lm1 :: lm2 :: rest).find? (fun m => (modelIdToStep outs m.model_id).isNone) = none →
        register_model env fuel modelUri name
          = some (finishRegister env name (some run_id)
              (some (pyMax (fun m => (modelIdToStep outs m.model_id).getD 0)
                lm1 (lm2 :: rest)).model_id)
              ("models:/" ++ (pyMax (fun m => (modelIdToStep outs m.model_id).getD 0)
                lm1 (lm2 :: rest)).model_id))
          ∧ pyMax (fun m => (modelIdToStep outs m.model_id).getD 0) lm1 (lm2 :: rest)
              ∈ lm1 :: lm2 :: rest
          ∧ ∀ lm ∈ lm1 :: lm2 :: rest,
              (modelIdToStep outs lm.model_id).getD 0
                ≤ (modelIdToStep outs
                    (pyMax (fun m => (modelIdToStep outs m.model_id).getD 0)
                      lm1 (lm2 :: rest)).model_id).getD 0)
    ∧ (∀ outs missing, run.outputs = some outs →
        (lm1 :: lm2 :: rest).find? (fun m => (modelIdToStep outs m.model_id).isNone)
            = some missing →
        register_model env fuel modelUri name
          = some (Except.error (PyErr.otherExc ("KeyError: " ++ missing.model_id)))) := by
  have hbase := register_model_runs_uri env fuel modelUri name run_id artifact_path run
    (lm1 :: lm2 :: rest) calls hcreate hruns hparse hart hrun hglm
  refine ⟨?_, ?_, ?_⟩
  · intro houts
    rw [hbase]
    unfold resolveFromLoggedModels
    rw [houts]
  · intro outs houts hcov
    refine ⟨?_, pyMax_mem _ _ _, ?_⟩
    · rw [hbase]
      unfold resolveFromLoggedModels
      rw [houts]
      dsimp only []
      rw [hcov]
    · intro lm hlm
      exact pyMax_key_le (fun m => (modelIdToStep outs m.model_id).getD 0)
        (lm2 :: rest) lm1 lm hlm
  · intro outs missing houts hmiss
    rw [hbase]
    unfold resolveFromLoggedModels
    rw [houts]
    dsimp only []
    rw [hmiss]

/-- Environment used by the C8 witness: two logged models of the run
match; the outputs record steps 3 and 7. -/
def envC8 : RegEnv :=
  ⟨fun _ => Except.ok (), fun _ => true, fun _ => ("r1", "mname"), fun _ => [], fun u => u,
   fun _ => Except.ok (MRun.mk (RunInfo.mk "r1" "e1")
     (some (RunOutputs.mk [ModelOutput.mk "mA" 3, ModelOutput.mk "mB" 7]))),
   fun _ _ _ => Except.ok (LoggedModelPage.mk
     [LoggedModel.mk "mA" "r1", LoggedModel.mk "mB" "r1"] none),
   fun _ => none,
   fun n _ _ _ => Except.ok (ModelVersion.mk n "1"),
   fun _ => Except.ok (LoggedModelInfo.mk []),
   fun _ _ => Except.ok ()⟩

/-- Environment used by the C8 witness's missing-key case: the run's
outputs record a step only for model `mB`, so the step-dict access for
`mA` raises a `KeyError`. -/
def envC8k : RegEnv :=
  ⟨fun _ => Except.ok (), fun _ => true, fun _ => ("r1", "mname"), fun _ => [], fun u => u,
   fun _ => Except.ok (MRun.mk (RunInfo.mk "r1" "e1")
     (some (RunOutputs.mk [ModelOutput.mk "mB" 7]))),
   fun _ _ _ => Except.ok (LoggedModelPage.mk
     [LoggedModel.mk "mA" "r1", LoggedModel.mk "mB" "r1"] none),
   fun _ => none,
   fun n _ _ _ => Except.ok (ModelVersion.mk n "1"),
   fun _ => Except.ok (LoggedModelInfo.mk []),
   fun _ _ => Except.ok ()⟩

/-- Witness for C8: with steps 3 and 7 recorded for both matched models,
the model logged at step 7 is registered; with a step recorded only for
`mB`, the `KeyError` for `mA` propagates. -/
theorem register_model_multiple_matches_witness :
    (register_model envC8 1 "runs:/r1/mname" "nm"
      = some (finishRegister envC8 "nm" (some "r1") (some "mB") ("models:/" ++ "mB"))
      ∧ (LoggedModel.mk "mB" "r1") ∈ [LoggedModel.mk "mA" "r1", LoggedModel.mk "mB" "r1"])
    ∧ register_model envC8k 1 "runs:/r1/mname" "nm"
      = some (Except.error (PyErr.otherExc ("KeyError: " ++ "mA"))) := by
  have h := register_model_multiple_matches envC8 1 "runs:/r1/mname" "nm" "r1" "mname"
    (MRun.mk (RunInfo.mk "r1" "e1")
      (some (RunOutputs.mk [ModelOutput.mk "mA" 3, ModelOutput.mk "mB" 7])))
    1 (LoggedModel.mk "mA" "r1") (LoggedModel.mk "mB" "r1") []
    rfl rfl rfl rfl rfl rfl
  have h2 := (h.2.1 (RunOutputs.mk [ModelOutput.mk "mA" 3, ModelOutput.mk "mB" 7])
    rfl (by decide)).1
  have hk := register_model_multiple_matches envC8k 1 "runs:/r1/mname" "nm" "r1" "mname"
    (MRun.mk (RunInfo.mk "r1" "e1") (some (RunOutputs.mk [ModelOutput.mk "mB" 7])))
    1 (LoggedModel.mk "mA" "r1") (LoggedModel.mk "mB" "r1") []
    rfl rfl rfl rfl rfl rfl
  refine ⟨⟨?_, by decide⟩, ?_⟩
  · have hmax : (pyMax (fun m => (modelIdToStep
        (RunOutputs.mk [ModelOutput.mk "mA" 3, ModelOutput.mk "mB" 7]) m.model_id).getD 0)
        (LoggedModel.mk "mA" "r1") [LoggedModel.mk "mB" "r1"]).model_id = "mB" := by decide
    rw [h2, hmax]
  · exact hk.2.2 (RunOutputs.mk [ModelOutput.mk "mB" 7]) (LoggedModel.mk "mA" "r1")
      rfl (by decide)

theorem finishRegister_ok_inv (env : RegEnv) (name : String) (run_id model_id : Option String)
    (source : String) (cv : ModelVersion) (eff : RegEffects)
    (h : finishRegister env name run_id model_id source = Except.ok (cv, eff)) :
    eff.createVersionCalls = [⟨name, source, run_id, model_id⟩]
    ∧ (model_id = none → eff.setTagCalls = [])
    ∧ (∀ mid, model_id = some mid →
        ∃ model, env.getLoggedModel mid = Except.ok model
          ∧ eff.setTagCalls
              = [(mid, [(MLFLOW_MODEL_VERSIONS,
                  ((model.tags.lookup MLFLOW_MODEL_VERSIONS).getD [])
                    ++ [ModelVersionEntry.mk cv.name cv.version])])]) := by
  unfold finishRegister at h
  cases hcv : env.createModelVersion name source run_id model_id with
  | error e =>
    rw [hcv] at h
    cases h
  | ok cv' =>
    rw [hcv] at h
    cases model_id with
    | none =>
      cases h
      exact ⟨rfl, fun _ => rfl, fun mid hmid => Option.noConfusion hmid⟩
    | some mid =>
      dsimp only [] at h
      cases hm : env.getLoggedModel mid with
      | error e =>
        rw [hm] at h
        cases h
      | ok model =>
        rw [hm] at h
        dsimp only [] at h
        cases hst : env.setLoggedModelTags mid [(MLFLOW_MODEL_VERSIONS,
            ((model.tags.lookup MLFLOW_MODEL_VERSIONS).getD [])
              ++ [ModelVersionEntry.mk cv'.name cv'.version])] with
        | error e =>
          rw [hst] at h
          cases h
        | ok u =>
          rw [hst] at h
          cases h
          exact ⟨rfl, fun hn => Option.noConfusion hn,
            fun mid2 hmid => by
              cases hmid
              exact ⟨model, hm, rfl⟩⟩

theorem register_model_ok_inv (env : RegEnv) (fuel : Nat) (modelUri name : String)
    (cv : ModelVersion) (eff : RegEffects)
    (h : register_model env fuel modelUri name = some (Except.ok (cv, eff))) :
    ∃ run_id model_id source,
      finishRegister env name run_id model_id source = Except.ok (cv, eff) := by
  unfold register_model _register_model at h
  have hafter : ∀ (h2 : _register_model_after_create env fuel modelUri name
      = some (Except.ok (cv, eff))),
      ∃ run_id model_id source,
        finishRegister env name run_id model_id source = Except.ok (cv, eff) := by
    intro h2
    unfold _register_model_after_create at h2
    cases hres : resolveModelSource env fuel modelUri with
    | none =>
      rw [hres] at h2
      cases h2
    | some r =>
      rw [hres] at h2
      match r, h2 with
      | .error e, h2 => cases h2
      | .ok (rid, mid0, source), h2 =>
        dsimp only [] at h2
        exact ⟨rid, _, source, Option.some.inj h2⟩
  cases hc : env.createRegisteredModel name with
  | ok u =>
    rw [hc] at h
    exact hafter h
  | error e =>
    rw [hc] at h
    match e, h with
    | PyErr.mlflowExc code msg, h =>
      dsimp only [] at h
      by_cases hcond : (code == "RESOURCE_ALREADY_EXISTS" || code == "ALREADY_EXISTS") = true
      · rw [if_pos hcond] at h
        exact hafter h
      · rw [if_neg hcond] at h
        cases h
    | PyErr.otherExc msg, h => cases h

/-- C9: whenever `register_model` succeeds it makes exactly one
create-version call; if that call carried no model id, no tag is written;
if it carried model id `mid`, exactly one `set_logged_model_tags` call is
made, on `mid`, whose dict holds exactly the `mlflow.modelVersions` key,
mapped to the previously stored entry list (the empty list when the tag
was absent) with the single entry `{name, version}` of the new version
appended at the end — no other tag of the logged model is touched. -/
theorem register_model_tag_append (env : RegEnv) (fuel : Nat) (modelUri name : String)
    (cv : ModelVersion) (eff : RegEffects)
    (h : register_model env fuel modelUri name = some (Except.ok (cv, eff))) :
    ∃ c, eff.createVersionCalls = [c] ∧ c.name = name
      ∧ (c.model_id = none → eff.setTagCalls = [])
      ∧ (∀ mid, c.model_id = some mid →
          ∃ model, env.getLoggedModel mid = Except.ok model
            ∧ eff.setTagCalls
                = [(mid, [(MLFLOW_MODEL_VERSIONS,
                    ((model.tags.lookup MLFLOW_MODEL_VERSIONS).getD [])
                      ++ [ModelVersionEntry.mk cv.name cv.version])])]) := by
  obtain ⟨run_id, model_id, source, hfin⟩ := register_model_ok_inv env fuel modelUri name cv eff h
  obtain ⟨hcalls, hnone, hsome⟩ := finishRegister_ok_inv env name run_id model_id source cv eff hfin
  exact ⟨⟨name, source, run_id, model_id⟩, hcalls, rfl, hnone, hsome⟩

/-- Environment used by the C9 witness: a `models:/` URI resolving model
id `m1`, whose logged model already has one entry under the tag. -/
def envC9 : RegEnv :=
  ⟨fun _ => Except.ok (), fun _ => false, fun _ => ("", ""), fun _ => [], fun u => u,
   fun _ => Except.error (PyErr.otherExc "no run"),
   fun _ _ _ => Except.error (PyErr.otherExc "no search"),
   fun _ => some "m1",
   fun n _ _ _ => Except.ok (ModelVersion.mk n "1"),
   fun _ => Except.ok (LoggedModelInfo.mk
     [(MLFLOW_MODEL_VERSIONS, [ModelVersionEntry.mk "old" "0"])]),
   fun _ _ => Except.ok ()⟩

/-- Witness for C9 at a concrete environment whose registration succeeds
and appends to an existing tag value. -/
theorem register_model_tag_append_witness :
    ∃ c, (RegEffects.mk [CreateVersionCall.mk "nm" "models:/m1" none (some "m1")]
        [("m1", [(MLFLOW_MODEL_VERSIONS,
          [ModelVersionEntry.mk "old" "0", ModelVersionEntry.mk "nm" "1"])])]).createVersionCalls
        = [c]
      ∧ c.name = "nm"
      ∧ (c.model_id = none →
          (RegEffects.mk [CreateVersionCall.mk "nm" "models:/m1" none (some "m1")]
            [("m1", [(MLFLOW_MODEL_VERSIONS,
              [ModelVersionEntry.mk "old" "0", ModelVersionEntry.mk "nm" "1"])])]).setTagCalls = [])
      ∧ (∀ mid, c.model_id = some mid →
          ∃ model, envC9.getLoggedModel mid = Except.ok model
            ∧ (RegEffects.mk [CreateVersionCall.mk "nm" "models:/m1" none (some "m1")]
                [("m1", [(MLFLOW_MODEL_VERSIONS,
                  [ModelVersionEntry.mk "old" "0", ModelVersionEntry.mk "nm" "1"])])]).setTagCalls
                = [(mid, [(MLFLOW_MODEL_VERSIONS,
                    ((model.tags.lookup MLFLOW_MODEL_VERSIONS).getD [])
                      ++ [ModelVersionEntry.mk (ModelVersion.mk "nm" "1").name
                            (ModelVersion.mk "nm" "1").version])])]) :=
  register_model_tag_append envC9 1 "models:/m1" "nm" (ModelVersion.mk "nm" "1")
    (RegEffects.mk [CreateVersionCall.mk "nm" "models:/m1" none (some "m1")]
      [("m1", [(MLFLOW_MODEL_VERSIONS,
        [ModelVersionEntry.mk "old" "0", ModelVersionEntry.mk "nm" "1"])])])
    rfl

end Mlflow
